import Mathlib

/-!
# Verification of the budgetsms-client protocol codec

Shallow embedding of the response-parsing / request-encoding layer of the
`budgetsms-client` TypeScript library (`src/utils.ts`, `src/errors.ts`,
`src/constants.ts`).  JavaScript strings are modelled as Lean `String`
(sequences of Unicode scalar values); JavaScript numbers produced by
`parseFloat` / `parseInt` are modelled exactly: `parseInt` yields
`Option Int` (`none` = `NaN`) and `parseFloat` yields `JSNum`
(`nan`, signed infinity, or an exact rational — decimal literals are
represented exactly rather than rounded to binary floating point).
Thrown exceptions are modelled with `Except`.
-/

deriving instance DecidableEq for Except

namespace BudgetSMS

/-- The set of characters matched by the JavaScript regex class `\s`
(and removed by `String.prototype.trim`): ECMA-262 WhiteSpace and
LineTerminator code points. -/
def jsWhitespace (c : Char) : Bool :=
  c.val == 0x9 || c.val == 0xA || c.val == 0xB || c.val == 0xC || c.val == 0xD ||
  c.val == 0x20 || c.val == 0xA0 || c.val == 0x1680 ||
  (0x2000 ≤ c.val && c.val ≤ 0x200A) ||
  c.val == 0x2028 || c.val == 0x2029 || c.val == 0x202F || c.val == 0x205F ||
  c.val == 0x3000 || c.val == 0xFEFF

/-- JavaScript `String.prototype.trim`: strip leading and trailing
whitespace / line terminators. -/
def jsTrimList (l : List Char) : List Char :=
  ((l.dropWhile jsWhitespace).reverse.dropWhile jsWhitespace).reverse

def jsTrim (s : String) : String :=
  String.mk (jsTrimList s.toList)

/-- `a.startsWith b` on JavaScript strings (code-unit prefix, which for
well-formed strings coincides with scalar-value prefix). -/
def jsStartsWith (s pre : String) : Bool :=
  pre.toList.isPrefixOf s.toList

/-- `s.substring(n)` for an index that falls on a scalar-value boundary
(all uses in the source drop an ASCII prefix). -/
def jsDrop (s : String) (n : Nat) : String :=
  String.mk (s.toList.drop n)

/-- Helper for `split(/\s+/)`: tokenize, where each maximal whitespace run
is a separator.  Runs right to left; the flag records whether the
character just to the left of the already-processed suffix was
whitespace, so that a run is collapsed into one separator. -/
def splitWSStep (c : Char) (st : Bool × List (List Char)) : Bool × List (List Char) :=
  let (wsRight, groups) := st
  if jsWhitespace c then
    (true, groups)
  else
    match groups with
    | [] => (false, [[c]])
    | g :: gs => if wsRight then (false, [c] :: g :: gs) else (false, (c :: g) :: gs)

def splitWSList (l : List Char) : List (List Char) :=
  let (wsLeft, groups) := l.foldr splitWSStep (false, [[]])
  if wsLeft then [] :: groups else groups

/-- JavaScript `s.split(/\s+/)`: split on maximal whitespace runs; a
leading/trailing run yields a leading/trailing empty string, and the
empty string yields `[""]`. -/
def splitWS (s : String) : List String :=
  (splitWSList s.toList).map String.mk

/-- Helper for `split(sep)` with a single-character separator string. -/
def splitCharGo (sep : Char) : List Char → List Char → List (List Char)
  | [], acc => [acc.reverse]
  | c :: rest, acc =>
    if c == sep then acc.reverse :: splitCharGo sep rest []
    else splitCharGo sep rest (c :: acc)

/-- JavaScript `s.split(":")` (single-character separator). -/
def jsSplitChar (sep : Char) (s : String) : List String :=
  (splitCharGo sep s.toList []).map String.mk

/-- Decimal digit accumulation. -/
def digitsToNat (l : List Char) : Nat :=
  l.foldl (fun acc c => acc * 10 + (c.toNat - 48)) 0

/-- JavaScript `parseInt(s, 10)`: skip leading whitespace, optional sign,
then the longest run of decimal digits; `NaN` (= `none`) if that run is
empty.  The exact integer value is kept (the source only meets small
codes, where the IEEE double is exact). -/
def parseIntCore (s : String) : Option Int :=
  let cs := s.toList.dropWhile jsWhitespace
  let (sign, cs1) : Int × List Char :=
    match cs with
    | '-' :: rest => (-1, rest)
    | '+' :: rest => (1, rest)
    | _ => (1, cs)
  let digits := cs1.takeWhile Char.isDigit
  if digits.isEmpty then none
  else some (sign * (digitsToNat digits : Int))

/-- A JavaScript number as produced by `parseFloat`: `NaN`, a signed
infinity, or a finite value (kept as an exact rational). -/
inductive JSNum where
  | nan : JSNum
  | inf (neg : Bool) : JSNum
  | num (q : ℚ) : JSNum
  deriving Repr, DecidableEq

/-- The exponent part `[eE][+-]?digits` of a decimal literal, if a complete
one starts here (JavaScript's longest-valid-prefix rule: an incomplete
exponent such as in `"1e"` or `"1e+"` is not consumed). -/
def parseExponent : List Char → Option Int
  | c :: rest =>
    if c == 'e' || c == 'E' then
      let (esign, rest2) : Int × List Char :=
        match rest with
        | '-' :: r => (-1, r)
        | '+' :: r => (1, r)
        | _ => (1, rest)
      let eds := rest2.takeWhile Char.isDigit
      if eds.isEmpty then none else some (esign * (digitsToNat eds : Int))
    else none
  | [] => none

/-- JavaScript `parseFloat(s)`: skip leading whitespace, optional sign,
then the longest prefix that is `Infinity` or a decimal literal
(`digits [. digits] [exp]` or `. digits [exp]`); `NaN` if there is none.
The value is exact (no rounding to binary floating point). -/
def parseFloatCore (s : String) : JSNum :=
  let cs := s.toList.dropWhile jsWhitespace
  let (neg, cs1) : Bool × List Char :=
    match cs with
    | '-' :: rest => (true, rest)
    | '+' :: rest => (false, rest)
    | _ => (false, cs)
  if ("Infinity".toList).isPrefixOf cs1 then
    JSNum.inf neg
  else
    let intDigits := cs1.takeWhile Char.isDigit
    let cs2 := cs1.drop intDigits.length
    let hasDot := match cs2 with
      | '.' :: _ => true
      | _ => false
    let fracDigits := if hasDot then (cs2.drop 1).takeWhile Char.isDigit else []
    let cs3 := if hasDot then (cs2.drop 1).drop fracDigits.length else cs2
    if intDigits.isEmpty && fracDigits.isEmpty then
      JSNum.nan
    else
      -- the exact value of `[+-]digits.digits e exp` is
      -- `± (intPart·10^fracLen + fracPart) · 10^exp / 10^fracLen`,
      -- expressed through `mkRat` so the rational is in lowest terms
      let mantissaNum : Int :=
        (digitsToNat intDigits * 10 ^ fracDigits.length + digitsToNat fracDigits : Nat)
      let signedNum : Int := if neg then -mantissaNum else mantissaNum
      let e : Int :=
        match parseExponent cs3 with
        | none => 0
        | some e => e
      JSNum.num
        (if 0 ≤ e then
          mkRat (signedNum * 10 ^ e.toNat) (10 ^ fracDigits.length)
        else
          mkRat signedNum (10 ^ fracDigits.length * 10 ^ (-e).toNat))

/-- `parseFloat` wrapped so that `NaN` propagates like the JavaScript
number it is assigned to. -/
def parseIntJS (s : String) : JSNum :=
  match parseIntCore s with
  | none => JSNum.nan
  | some n => JSNum.num (n : ℚ)

/-! ## Error model (`src/constants.ts`, `src/errors.ts`) -/

/-- `ERROR_MESSAGES`: the canonical message table, keyed by error code
(`src/constants.ts`).  `none` models an absent key (JavaScript
`undefined`). -/
def ERROR_MESSAGES : Int → Option String
  | 1001 => some "Not enough credits to send messages"
  | 1002 => some "Identification failed. Wrong credentials"
  | 1003 => some "Account not active, contact BudgetSMS"
  | 1004 => some "This IP address is not added to this account. No access to the API"
  | 1005 => some "No handle provided"
  | 1006 => some "No UserID provided"
  | 1007 => some "No Username provided"
  | 2001 => some "SMS message text is empty"
  | 2002 => some "SMS numeric senderid can be max. 16 numbers"
  | 2003 => some "SMS alphanumeric sender can be max. 11 characters"
  | 2004 => some "SMS senderid is empty or invalid"
  | 2005 => some "Destination number is too short"
  | 2006 => some "Destination is not numeric"
  | 2007 => some "Destination is empty"
  | 2008 => some "SMS text is not OK (check encoding?)"
  | 2009 => some "Parameter issue (check all mandatory parameters, encoding, etc.)"
  | 2010 => some "Destination number is invalidly formatted"
  | 2011 => some "Destination is invalid"
  | 2012 => some "SMS message text is too long"
  | 2013 => some "SMS message is invalid"
  | 2014 => some "SMS CustomID is used before"
  | 2015 => some "Charset problem"
  | 2016 => some "Invalid UTF-8 encoding"
  | 2017 => some "Invalid SMSid"
  | 3001 => some "No route to destination. Contact BudgetSMS for possible solutions"
  | 3002 => some "No routes are setup. Contact BudgetSMS for a route setup"
  | 3003 => some "Invalid destination. Check international mobile number formatting"
  | 4001 => some "System error, related to customID"
  | 4002 => some "System error, temporary issue. Try resubmitting in 2 to 3 minutes"
  | 4003 => some "System error, temporary issue"
  | 4004 => some "System error, temporary issue. Contact BudgetSMS"
  | 4005 => some "System error, permanent"
  | 4006 => some "Gateway not reachable"
  | 4007 => some "System error, contact BudgetSMS"
  | 5001 => some "Send error, Contact BudgetSMS with the send details"
  | 5002 => some "Wrong SMS type"
  | 5003 => some "Wrong operator"
  | 6001 => some "Unknown error"
  | 7001 => some "No HLR provider present, Contact BudgetSMS"
  | 7002 => some "Unexpected results from HLR provider"
  | 7003 => some "Bad number format"
  | 7901 => some "Unexpected error. Contact BudgetSMS"
  | 7902 => some "HLR provider error. Contact BudgetSMS"
  | 7903 => some "HLR provider error. Contact BudgetSMS"
  | _ => none

/-- The delivery statuses enumerated by `DLRStatus` (`src/constants.ts`):
0–8 and 11–13 — 9 and 10 are absent. -/
def knownDLRStatuses : List Int :=
  [0, 1, 2, 3, 4, 5, 6, 7, 8, 11, 12, 13]

/-- `BudgetSMSError`: the structured error carrying a gateway error code
(the spec's ProtocolError). -/
structure BudgetSMSError where
  code : Int
  message : String
  deriving Repr, DecidableEq

/-- The `BudgetSMSError` constructor (`src/errors.ts`):
`super(message || ERROR_MESSAGES[code] || fallback)`.  JavaScript `||`
falls through on the empty string, which is modelled faithfully even
though no table entry is empty. -/
def mkBudgetSMSError (code : Int) (customMessage : Option String) : BudgetSMSError :=
  let step1 : Option String :=
    match customMessage with
    | some m => if m = "" then none else some m
    | none => none
  let message :=
    match step1 with
    | some m => m
    | none =>
      match ERROR_MESSAGES code with
      | some m => if m = "" then "BudgetSMS API error: " ++ toString code else m
      | none => "BudgetSMS API error: " ++ toString code
  { code := code, message := message }

/-- An exception thrown by the codec: either a structured
`BudgetSMSError` (`throw new BudgetSMSError(...)`, the spec's
ProtocolError) or a plain `Error` (`throw new Error(...)`, the spec's
MalformedError). -/
inductive JSError where
  | budget (e : BudgetSMSError) : JSError
  | plain (message : String) : JSError
  deriving Repr, DecidableEq

/-- Is this exception a plain `Error` (spec: MalformedError)? -/
def JSError.isMalformed : JSError → Bool
  | .budget _ => false
  | .plain _ => true

/-- The `message` property of the thrown exception. -/
def JSError.message : JSError → String
  | .budget e => e.message
  | .plain m => m

/-- ASCII lowercasing, for case-insensitive message comparison. -/
def lowerAsciiChar (c : Char) : Char :=
  if 'A' ≤ c && c ≤ 'Z' then Char.ofNat (c.toNat + 32) else c

def lowerAscii (s : String) : String :=
  String.mk (s.toList.map lowerAsciiChar)

/-- Substring containment. -/
def strContains (s sub : String) : Bool :=
  s.toList.tails.any fun t => sub.toList.isPrefixOf t

/-- Substring containment up to ASCII case. -/
def strContainsCI (s sub : String) : Bool :=
  strContains (lowerAscii s) (lowerAscii sub)

/-! ## Protocol codec (`src/utils.ts`) -/

/-- `parseResponse` (`src/utils.ts`): decode the generic `OK` / `ERR`
envelope, returning the payload or throwing. -/
def parseResponse (response : String) : Except JSError String :=
  let trimmed := jsTrim response
  if jsStartsWith trimmed "ERR " then
    match parseIntCore (jsDrop trimmed 4) with
    | none => Except.error (JSError.plain ("Invalid error response format: " ++ trimmed))
    | some errorCode => Except.error (JSError.budget (mkBudgetSMSError errorCode none))
  else if jsStartsWith trimmed "OK " then
    Except.ok (jsTrim (jsDrop trimmed 3))
  else if trimmed = "OK" then
    Except.ok ""
  else
    Except.error (JSError.plain ("Unexpected API response format: " ++ trimmed))

/-- `SendSMSResponse` (`src/types.ts`): number-valued fields keep the
`JSNum` the parse produced (`parseInt` can assign `NaN` to `parts`). -/
structure SendSMSResponse where
  success : Bool
  smsId : String
  price : Option JSNum := none
  parts : Option JSNum := none
  mccMnc : Option String := none
  credit : Option JSNum := none
  deriving Repr, DecidableEq

/-- `parseSendSMSResponse` (`src/utils.ts`): decode the send-SMS reply,
consuming the positional optional fields according to the flags.  The
undefined-able TypeScript flags are modelled as `Bool` (`undefined` is
falsy). -/
def parseSendSMSResponse (response : String)
    (includePrice includeMccMnc includeCredit : Bool) :
    Except JSError SendSMSResponse :=
  match parseResponse response with
  | Except.error e => Except.error e
  | Except.ok data =>
    let toks := splitWS data
    if toks.length = 0 then
      Except.error (JSError.plain "Invalid send SMS response: no SMS ID found")
    else
      let result : SendSMSResponse := { success := true, smsId := toks.getD 0 "" }
      let index := 1
      let (result, index) :=
        if includePrice && decide (toks.length > index + 1) then
          ({ result with
              price := some (parseFloatCore (toks.getD index ""))
              parts := some (parseIntJS (toks.getD (index + 1) "")) },
            index + 2)
        else (result, index)
      let (result, index) :=
        if includeMccMnc && decide (toks.length > index) then
          ({ result with mccMnc := some (toks.getD index "") }, index + 1)
        else (result, index)
      let result :=
        if includeCredit && decide (toks.length > index) then
          { result with credit := some (parseFloatCore (toks.getD index "")) }
        else result
      Except.ok result

/-- `OperatorResponse` (`src/types.ts`). -/
structure OperatorResponse where
  success : Bool
  mccMnc : String
  operatorName : String
  messageCost : JSNum
  deriving Repr, DecidableEq

/-- `parseOperatorResponse` (`src/utils.ts`): decode the
operator-lookup / HLR reply `mccMnc:operatorName:messageCost`. -/
def parseOperatorResponse (response : String) : Except JSError OperatorResponse :=
  match parseResponse response with
  | Except.error e => Except.error e
  | Except.ok data =>
    let parts := jsSplitChar ':' data
    if parts.length < 3 then
      Except.error (JSError.plain ("Invalid operator response format: " ++ data))
    else
      Except.ok
        { success := true
          mccMnc := parts.getD 0 ""
          operatorName := parts.getD 1 ""
          messageCost := parseFloatCore (parts.getD 2 "") }

/-- `SMSStatusResponse` (`src/types.ts`): `status` is typed `DLRStatus`
in TypeScript, but a TypeScript numeric-enum cast performs no check, so
the field holds the raw parsed integer. -/
structure SMSStatusResponse where
  success : Bool
  smsId : String
  status : Int
  deriving Repr, DecidableEq

/-- `parseSMSStatusResponse` (`src/utils.ts`): decode the
delivery-status reply. -/
def parseSMSStatusResponse (response : String) (smsId : String) :
    Except JSError SMSStatusResponse :=
  match parseResponse response with
  | Except.error e => Except.error e
  | Except.ok data =>
    match parseIntCore data with
    | none => Except.error (JSError.plain ("Invalid status response: " ++ data))
    | some status => Except.ok { success := true, smsId := smsId, status := status }

/-! ## Query-string encoding (`src/utils.ts`) -/

/-- A present value of `APIRequestParams` (`src/types.ts`:
`string | number | boolean | undefined`).  Numbers are modelled as
integers: every numeric parameter the client sends is integral, and
JavaScript `String(n)` on an integral double below `10^21` is its plain
decimal rendering. -/
inductive JSValue where
  | vstr (s : String) : JSValue
  | vint (n : Int) : JSValue
  | vbool (b : Bool) : JSValue
  deriving Repr, DecidableEq

/-- The coercion applied to each kept value:
`typeof value === 'boolean' ? (value ? '1' : '0') : String(value)`. -/
def stringValue : JSValue → String
  | JSValue.vbool b => if b then "1" else "0"
  | JSValue.vstr s => s
  | JSValue.vint n => toString n

/-- Characters `encodeURIComponent` leaves unescaped:
`A–Z a–z 0–9 - _ . ! ~ * ' ( )`. -/
def isUriUnescaped (c : Char) : Bool :=
  ('A' ≤ c && c ≤ 'Z') || ('a' ≤ c && c ≤ 'z') || ('0' ≤ c && c ≤ '9') ||
  c == '-' || c == '_' || c == '.' || c == '!' || c == '~' || c == '*' ||
  c.val == 39 || c == '(' || c == ')'

/-- The UTF-8 bytes of a Unicode scalar value. -/
def utf8Bytes (c : Char) : List Nat :=
  let n := c.toNat
  if n < 0x80 then [n]
  else if n < 0x800 then
    [0xC0 + n / 0x40, 0x80 + n % 0x40]
  else if n < 0x10000 then
    [0xE0 + n / 0x1000, 0x80 + n / 0x40 % 0x40, 0x80 + n % 0x40]
  else
    [0xF0 + n / 0x40000, 0x80 + n / 0x1000 % 0x40, 0x80 + n / 0x40 % 0x40, 0x80 + n % 0x40]

/-- An uppercase hexadecimal digit. -/
def hexDigit (n : Nat) : Char :=
  if n < 10 then Char.ofNat (48 + n) else Char.ofNat (55 + n)

/-- `%XX` escape of one byte. -/
def percentByte (b : Nat) : List Char :=
  ['%', hexDigit (b / 16), hexDigit (b % 16)]

/-- JavaScript `encodeURIComponent`: keep unreserved characters, escape
everything else as the `%XX` codes of its UTF-8 bytes.  (Lean strings
are well-formed Unicode, so the lone-surrogate `URIError` case cannot
arise.) -/
def encodeURIComponent (s : String) : String :=
  String.mk (s.toList.flatMap fun c =>
    if isUriUnescaped c then [c] else (utf8Bytes c).flatMap percentByte)

/-- One iteration of the `buildQueryString` loop: skip an absent
(`undefined`/`null`) value, otherwise produce
`encodeURIComponent(key) + "=" + encodeURIComponent(stringValue)`. -/
def queryPair (kv : String × Option JSValue) : Option String :=
  match kv.2 with
  | none => none
  | some value =>
    some (encodeURIComponent kv.1 ++ "=" ++ encodeURIComponent (stringValue value))

/-- `buildQueryString` (`src/utils.ts`): the parameter object is
modelled as an association list in `Object.entries` order. -/
def buildQueryString (params : List (String × Option JSValue)) : String :=
  String.intercalate "&" (params.filterMap queryPair)

/-! ## Validators (`src/utils.ts`) -/

/-- One character of the class `[a-zA-Z0-9]`. -/
def isAlnumAscii (c : Char) : Bool :=
  ('a' ≤ c && c ≤ 'z') || ('A' ≤ c && c ≤ 'Z') || ('0' ≤ c && c ≤ '9')

/-- One character of the class `\d`. -/
def isDigitAscii (c : Char) : Bool :=
  '0' ≤ c && c ≤ '9'

/-- `regex.test(s)` for an anchored regex `^[class]{lo,hi}$`: the whole
string is `lo`–`hi` characters of the class. -/
def matchesClassRange (cls : Char → Bool) (lo hi : Nat) (s : String) : Bool :=
  decide (lo ≤ s.toList.length) && decide (s.toList.length ≤ hi) && s.toList.all cls

/-- `validateSender` (`src/utils.ts`):
`/^[a-zA-Z0-9]{1,11}$/.test(sender) || /^\d{1,16}$/.test(sender)`. -/
def validateSender (sender : String) : Bool :=
  if matchesClassRange isAlnumAscii 1 11 sender then true
  else if matchesClassRange isDigitAscii 1 16 sender then true
  else false

/-- `validatePhoneNumber` (`src/utils.ts`): `/^\d{8,16}$/.test(s)`. -/
def validatePhoneNumber (phoneNumber : String) : Bool :=
  matchesClassRange isDigitAscii 8 16 phoneNumber

/-! ## Error classification predicates (`src/errors.ts`) -/

/-- `BudgetSMSError.isRetryable`. -/
def BudgetSMSError.isRetryable (e : BudgetSMSError) : Bool :=
  [(4002 : Int), 4003, 4006].contains e.code

/-- `BudgetSMSError.isAuthenticationError`. -/
def BudgetSMSError.isAuthenticationError (e : BudgetSMSError) : Bool :=
  [(1002 : Int), 1003, 1004, 1005, 1006, 1007].contains e.code

/-- `BudgetSMSError.isInsufficientCredits`. -/
def BudgetSMSError.isInsufficientCredits (e : BudgetSMSError) : Bool :=
  e.code == 1001

/-! ## Supporting lemmas -/

theorem jsTrimList_eq_rdropWhile (l : List Char) :
    jsTrimList l = List.rdropWhile jsWhitespace (List.dropWhile jsWhitespace l) := rfl

theorem dropWhile_prefix_self {α : Type} {p : α → Bool} {r t x : List α}
    (hx : r ++ t = x) (hself : List.dropWhile p x = x) :
    List.dropWhile p r = r := by
  subst hx
  rw [List.dropWhile_eq_self_iff] at hself ⊢
  intro hl
  have hx' : 0 < (r ++ t).length := by
    rw [List.length_append]
    omega
  have h0 := hself hx'
  simpa [List.get_eq_getElem, List.getElem_append_left hl] using h0

theorem dropWhile_rdropWhile_dropWhile (p : Char → Bool) (l : List Char) :
    List.dropWhile p (List.rdropWhile p (List.dropWhile p l)) =
      List.rdropWhile p (List.dropWhile p l) := by
  obtain ⟨t, ht⟩ := List.rdropWhile_prefix p (List.dropWhile p l)
  exact dropWhile_prefix_self ht (List.dropWhile_idempotent p l)

theorem jsTrimList_idem (l : List Char) : jsTrimList (jsTrimList l) = jsTrimList l := by
  rw [jsTrimList_eq_rdropWhile, jsTrimList_eq_rdropWhile,
    dropWhile_rdropWhile_dropWhile, List.rdropWhile_idempotent]

theorem jsTrim_idem (s : String) : jsTrim (jsTrim s) = jsTrim s :=
  congrArg String.mk (jsTrimList_idem s.toList)

theorem not_err_of_ok_prefix (t : String) (h : jsStartsWith t "OK " = true) :
    jsStartsWith t "ERR " = false := by
  unfold jsStartsWith at h ⊢
  rw [List.isPrefixOf_iff_prefix] at h
  obtain ⟨u, hu⟩ := h
  by_contra hc
  rw [Bool.not_eq_false, List.isPrefixOf_iff_prefix] at hc
  obtain ⟨v, hv⟩ := hc
  have hu' : t.toList = 'O' :: 'K' :: ' ' :: u := by rw [← hu]; rfl
  have hv' : t.toList = 'E' :: 'R' :: 'R' :: ' ' :: v := by rw [← hv]; rfl
  rw [hu'] at hv'
  simp at hv'

theorem strContains_of_prefix (s sub : String) (h : sub.toList <+: s.toList) :
    strContains s sub = true := by
  unfold strContains
  rw [List.any_eq_true]
  refine ⟨s.toList, ?_, ?_⟩
  · rw [List.mem_tails]
  · rw [List.isPrefixOf_iff_prefix]
    exact h

theorem lowerAscii_append (a b : String) :
    lowerAscii (a ++ b) = lowerAscii a ++ lowerAscii b := by
  unfold lowerAscii
  have : (a ++ b).toList = a.toList ++ b.toList := rfl
  rw [this, List.map_append]
  rfl

theorem strContainsCI_of_prefix_append (pre tail sub : String)
    (h : (lowerAscii sub).toList <+: (lowerAscii pre).toList) :
    strContainsCI (pre ++ tail) sub = true := by
  unfold strContainsCI
  apply strContains_of_prefix
  rw [lowerAscii_append]
  have : (lowerAscii pre ++ lowerAscii tail).toList =
      (lowerAscii pre).toList ++ (lowerAscii tail).toList := rfl
  rw [this]
  exact h.trans (List.prefix_append _ _)

/-! ## C1: the generic OK/ERR envelope -/

/-- C1.  `parseResponse` first trims its input; exactly `OK` yields the
empty payload; an `OK `-prefixed input yields the trimmed remainder
(`"OK 12345"` ↦ `"12345"`); `"ERR 1001"` throws a `BudgetSMSError` with
code 1001; and an input matching none of the shapes, such as
`"GARBAGE"`, throws a plain error whose message contains (up to ASCII
case) "unexpected API response format". -/
theorem claim_C1 :
    (∀ s : String, parseResponse s = parseResponse (jsTrim s)) ∧
    (∀ s : String, jsTrim s = "OK" → parseResponse s = Except.ok "") ∧
    (∀ s : String, jsStartsWith (jsTrim s) "OK " = true →
      parseResponse s = Except.ok (jsTrim (jsDrop (jsTrim s) 3))) ∧
    parseResponse "OK 12345" = Except.ok "12345" ∧
    (parseResponse "ERR 1001" =
        Except.error (JSError.budget (mkBudgetSMSError 1001 none)) ∧
      (mkBudgetSMSError 1001 none).code = 1001) ∧
    (parseResponse "GARBAGE" =
        Except.error (JSError.plain "Unexpected API response format: GARBAGE") ∧
      (JSError.plain "Unexpected API response format: GARBAGE").isMalformed = true ∧
      strContainsCI "Unexpected API response format: GARBAGE"
        "unexpected API response format" = true) ∧
    (∀ s : String, jsStartsWith (jsTrim s) "ERR " = false →
      jsStartsWith (jsTrim s) "OK " = false → jsTrim s ≠ "OK" →
      parseResponse s =
        Except.error (JSError.plain ("Unexpected API response format: " ++ jsTrim s)) ∧
      strContainsCI ("Unexpected API response format: " ++ jsTrim s)
        "unexpected API response format" = true) := by
  refine ⟨?_, ?_, ?_, by decide, ⟨by decide, by decide⟩,
    ⟨by decide, by decide, by decide⟩, ?_⟩
  · intro s
    unfold parseResponse
    rw [jsTrim_idem]
  · intro s h
    have e1 : jsStartsWith "OK" "ERR " = false := by decide
    have e2 : jsStartsWith "OK" "OK " = false := by decide
    simp [parseResponse, h, e1, e2]
  · intro s h
    have h1 := not_err_of_ok_prefix _ h
    simp [parseResponse, h, h1]
  · intro s h1 h2 h3
    refine ⟨by simp [parseResponse, h1, h2, h3], ?_⟩
    apply strContainsCI_of_prefix_append
    rw [← List.isPrefixOf_iff_prefix]
    decide

/-- Witness for C1 at concrete inputs:  `"  OK  "` trims to exactly `OK`
and decodes to the empty payload; `" OK 7 "` trims to an `OK `-prefixed
string and decodes to the trimmed remainder; `" junk "` matches no shape
and decodes to the malformed-format error. -/
theorem claim_C1_witness :
    (parseResponse "  OK  " = Except.ok "" ∧
      parseResponse " OK 7 " = Except.ok (jsTrim (jsDrop (jsTrim " OK 7 ") 3)) ∧
      parseResponse "x" = parseResponse (jsTrim "x") ∧
      parseResponse " junk " =
        Except.error (JSError.plain ("Unexpected API response format: " ++ jsTrim " junk "))) :=
  ⟨claim_C1.2.1 "  OK  " (by decide),
    claim_C1.2.2.1 " OK 7 " (by decide),
    claim_C1.1 "x",
    (claim_C1.2.2.2.2.2.2 " junk " (by decide) (by decide) (by decide)).1⟩

/-! ## C2: empty payload in the send-SMS decoder -/

/-- C2 (documents the code bug).  On the successful envelope `"OK"` with
empty payload, `parseSendSMSResponse` does **not** fail: JavaScript
`"".split(/\s+/)` yields `[""]`, so the `parts.length === 0` guard never
fires and the function returns a result whose message ID is the empty
string, for every combination of the three flags — contradicting both
the claim and the function's own `'no SMS ID found'` guard. -/
theorem claim_C2 :
    (∀ includePrice includeMccMnc includeCredit : Bool,
      parseSendSMSResponse "OK" includePrice includeMccMnc includeCredit =
        Except.ok { success := true, smsId := "" }) ∧
    splitWS "" = [""] ∧
    parseResponse "OK" = Except.ok "" := by
  refine ⟨?_, by decide, by decide⟩
  intro p m c
  cases p <;> cases m <;> cases c <;> decide

/-! ## C3: the ERR branch of the envelope -/

theorem ERROR_MESSAGES_ne_empty (n : Int) (m : String)
    (h : ERROR_MESSAGES n = some m) : m ≠ "" := by
  unfold ERROR_MESSAGES at h
  split at h <;> simp_all <;>
    (intro hm; rw [hm] at h; exact absurd h (by decide))

/-- C3.  On a trimmed input starting with `ERR `: if the remainder does
not `parseInt` to an integer the result is a plain error whose message
contains (up to ASCII case) "invalid error response format"; otherwise a
`BudgetSMSError` carrying exactly the parsed integer as its code, whose
message is the canonical table message when the code is known and
`BudgetSMS API error: <code>` otherwise. -/
theorem claim_C3 :
    ∀ s : String, jsStartsWith (jsTrim s) "ERR " = true →
      (parseIntCore (jsDrop (jsTrim s) 4) = none →
        parseResponse s =
          Except.error (JSError.plain ("Invalid error response format: " ++ jsTrim s)) ∧
        (JSError.plain ("Invalid error response format: " ++ jsTrim s)).isMalformed = true ∧
        strContainsCI ("Invalid error response format: " ++ jsTrim s)
          "invalid error response format" = true) ∧
      (∀ n : Int, parseIntCore (jsDrop (jsTrim s) 4) = some n →
        parseResponse s = Except.error (JSError.budget (mkBudgetSMSError n none)) ∧
        (mkBudgetSMSError n none).code = n ∧
        (∀ m : String, ERROR_MESSAGES n = some m →
          (mkBudgetSMSError n none).message = m) ∧
        (ERROR_MESSAGES n = none →
          (mkBudgetSMSError n none).message = "BudgetSMS API error: " ++ toString n)) := by
  intro s herr
  constructor
  · intro hnone
    refine ⟨by simp [parseResponse, herr, hnone], rfl, ?_⟩
    apply strContainsCI_of_prefix_append
    rw [← List.isPrefixOf_iff_prefix]
    decide
  · intro n hsome
    refine ⟨by simp [parseResponse, herr, hsome], rfl, ?_, ?_⟩
    · intro m hm
      have hne := ERROR_MESSAGES_ne_empty n m hm
      simp [mkBudgetSMSError, hm, hne]
    · intro hnone2
      simp [mkBudgetSMSError, hnone2]

/-- Witness for C3: `"ERR abc"` (non-integer remainder), `"ERR 9999"`
(integer that is not a known code) and code 1001 (known code). -/
theorem claim_C3_witness :
    (jsStartsWith (jsTrim "ERR abc") "ERR " = true ∧
      parseResponse "ERR abc" =
        Except.error (JSError.plain ("Invalid error response format: " ++ jsTrim "ERR abc"))) ∧
    (parseIntCore (jsDrop (jsTrim "ERR 9999") 4) = some 9999 ∧
      parseResponse "ERR 9999" = Except.error (JSError.budget (mkBudgetSMSError 9999 none)) ∧
      (mkBudgetSMSError 9999 none).message = "BudgetSMS API error: " ++ toString (9999 : Int)) ∧
    (ERROR_MESSAGES 1001 = some "Not enough credits to send messages" ∧
      (mkBudgetSMSError 1001 none).message = "Not enough credits to send messages") :=
  ⟨⟨by decide, ((claim_C3 "ERR abc" (by decide)).1 (by decide)).1⟩,
    ⟨by decide,
      ((claim_C3 "ERR 9999" (by decide)).2 9999 (by decide)).1,
      ((claim_C3 "ERR 9999" (by decide)).2 9999 (by decide)).2.2.2 (by decide)⟩,
    ⟨by decide,
      ((claim_C3 "ERR 1001" (by decide)).2 1001 (by decide)).2.2.1
        "Not enough credits to send messages" (by decide)⟩⟩

/-! ## C4: positional optional fields of the send-SMS decoder -/

theorem foldr_splitWSStep_snd_ne_nil (l : List Char) :
    (l.foldr splitWSStep (false, [[]])).2 ≠ [] := by
  induction l with
  | nil => simp
  | cons c rest ih =>
    rw [List.foldr_cons]
    cases hst : rest.foldr splitWSStep (false, [[]]) with
    | mk b g =>
      rw [hst] at ih
      unfold splitWSStep
      by_cases hc : jsWhitespace c
      · simpa [hc] using ih
      · cases g with
        | nil => simp [hc]
        | cons g0 gs => by_cases hb : b <;> simp [hc, hb]

theorem splitWS_ne_nil (s : String) : splitWS s ≠ [] := by
  unfold splitWS splitWSList
  cases hst : s.toList.foldr splitWSStep (false, [[]]) with
  | mk b g =>
    have hg := foldr_splitWSStep_snd_ne_nil s.toList
    rw [hst] at hg
    by_cases hb : b
    · simp [hb]
    · simp only [hb, if_false, Ne, List.map_eq_nil_iff]
      exact hg

theorem splitWS_length_ne_zero (s : String) : ¬ ((splitWS s).length = 0) := by
  rw [List.length_eq_zero]
  exact splitWS_ne_nil s

/-- Modelled from the spec's words, for comparison with
`parseSendSMSResponse`: the positional-consumption rule for the
send-result payload.  The first token is the message ID; fields then
start at position 1.  If `wantPrice` is set and at least two tokens
remain at that position, two tokens are consumed as price and
part-count, otherwise they are silently omitted; then if `wantMccMnc`
is set and one token remains it is consumed as the MCC/MNC; then if
`wantCredit` is set and one token remains it is consumed as the
credit. -/
def sendResultSpec (toks : List String)
    (wantPrice wantMccMnc wantCredit : Bool) : SendSMSResponse :=
  let priceTaken := wantPrice && decide (2 ≤ toks.length - 1)
  let posAfterPrice := if priceTaken then 3 else 1
  let mccTaken := wantMccMnc && decide (1 ≤ toks.length - posAfterPrice)
  let posAfterMcc := if mccTaken then posAfterPrice + 1 else posAfterPrice
  let creditTaken := wantCredit && decide (1 ≤ toks.length - posAfterMcc)
  { success := true
    smsId := toks.getD 0 ""
    price := if priceTaken then some (parseFloatCore (toks.getD 1 "")) else none
    parts := if priceTaken then some (parseIntJS (toks.getD 2 "")) else none
    mccMnc := if mccTaken then some (toks.getD posAfterPrice "") else none
    credit := if creditTaken then some (parseFloatCore (toks.getD posAfterMcc "")) else none }

/-- C4.  For every successful payload and every combination of the
three flags, `parseSendSMSResponse` realizes exactly the claim's
positional-consumption rule (`sendResultSpec`): first token is the
message ID, then price/parts (two tokens, only when `wantPrice` is set
and at least two tokens remain at that position, otherwise silently
omitted with no error), then MCC/MNC (one token, when `wantMccMnc` is
set and one remains), then credit (one token, when `wantCredit` is set
and one remains); in particular `"OK 12345678 0.055 1 20416"` with
price and MCC/MNC requested yields `{smsId := "12345678",
price := 0.055, parts := 1, mccMnc := "20416"}`. -/
theorem claim_C4 :
    (∀ (s payload : String) (wantPrice wantMccMnc wantCredit : Bool),
      parseResponse s = Except.ok payload →
      parseSendSMSResponse s wantPrice wantMccMnc wantCredit =
        Except.ok (sendResultSpec (splitWS payload) wantPrice wantMccMnc wantCredit)) ∧
    (parseSendSMSResponse "OK 12345678 0.055 1 20416" true true false =
      Except.ok { success := true, smsId := "12345678",
                  price := some (JSNum.num (mkRat 55 1000)),
                  parts := some (JSNum.num 1),
                  mccMnc := some "20416", credit := none }) := by
  refine ⟨?_, by decide⟩
  intro s payload p m c h
  have hne : ¬ ((splitWS payload).length = 0) := splitWS_length_ne_zero payload
  simp only [parseSendSMSResponse, h]
  generalize splitWS payload = toks at hne ⊢
  unfold sendResultSpec
  cases p <;> cases m <;> cases c <;>
    simp only [hne, if_false, Bool.false_and, Bool.true_and, decide_True, decide_False,
      if_true]
  all_goals
    split_ifs <;>
      first
        | rfl
        | (simp only [decide_eq_true_eq] at *; try omega)

/-- Witness for C4 at concrete replies exercising every flag: all three
flags with a five-token payload and with a two-token payload
(price/parts silently omitted), `wantPrice` unset with a three-token
payload (MCC/MNC then credit), and `wantMccMnc` unset with a four-token
payload (price/parts then credit), each time also evaluating
`sendResultSpec` to the concrete field assignment. -/
theorem claim_C4_witness :
    (parseResponse "OK idX 1.5 2 204 9.9" = Except.ok "idX 1.5 2 204 9.9" ∧
      parseSendSMSResponse "OK idX 1.5 2 204 9.9" true true true =
        Except.ok (sendResultSpec (splitWS "idX 1.5 2 204 9.9") true true true) ∧
      sendResultSpec (splitWS "idX 1.5 2 204 9.9") true true true =
        { success := true, smsId := "idX", price := some (parseFloatCore "1.5"),
          parts := some (parseIntJS "2"), mccMnc := some "204",
          credit := some (parseFloatCore "9.9") }) ∧
    (parseSendSMSResponse "OK idX 204" true true true =
        Except.ok (sendResultSpec (splitWS "idX 204") true true true) ∧
      sendResultSpec (splitWS "idX 204") true true true =
        { success := true, smsId := "idX", price := none, parts := none,
          mccMnc := some "204", credit := none }) ∧
    (parseSendSMSResponse "OK idX 204 7.5" false true true =
        Except.ok (sendResultSpec (splitWS "idX 204 7.5") false true true) ∧
      sendResultSpec (splitWS "idX 204 7.5") false true true =
        { success := true, smsId := "idX", price := none, parts := none,
          mccMnc := some "204", credit := some (parseFloatCore "7.5") }) ∧
    (parseSendSMSResponse "OK idX 1.5 2 7.5" true false true =
        Except.ok (sendResultSpec (splitWS "idX 1.5 2 7.5") true false true) ∧
      sendResultSpec (splitWS "idX 1.5 2 7.5") true false true =
        { success := true, smsId := "idX", price := some (parseFloatCore "1.5"),
          parts := some (parseIntJS "2"), mccMnc := none,
          credit := some (parseFloatCore "7.5") }) :=
  ⟨⟨by decide,
      claim_C4.1 "OK idX 1.5 2 204 9.9" "idX 1.5 2 204 9.9" true true true (by decide),
      by decide⟩,
    ⟨claim_C4.1 "OK idX 204" "idX 204" true true true (by decide), by decide⟩,
    ⟨claim_C4.1 "OK idX 204 7.5" "idX 204 7.5" false true true (by decide), by decide⟩,
    ⟨claim_C4.1 "OK idX 1.5 2 7.5" "idX 1.5 2 7.5" true false true (by decide), by decide⟩⟩

/-! ## C5: delivery-status decoding -/

/-- C5.  `parseSMSStatusResponse` parses the payload with `parseInt` and
fails with a plain "Invalid status response" error exactly when the
payload is not an integer; when it is, the raw integer is returned as
the status with no membership check against the known delivery-status
set — 9, 10 and 99 are outside `DLRStatus` yet pass through. -/
theorem claim_C5 :
    (∀ s smsId payload : String, parseResponse s = Except.ok payload →
      (parseIntCore payload = none →
        parseSMSStatusResponse s smsId =
          Except.error (JSError.plain ("Invalid status response: " ++ payload)) ∧
        (JSError.plain ("Invalid status response: " ++ payload)).isMalformed = true) ∧
      (∀ status : Int, parseIntCore payload = some status →
        parseSMSStatusResponse s smsId =
          Except.ok { success := true, smsId := smsId, status := status })) ∧
    ((9 : Int) ∉ knownDLRStatuses ∧ (10 : Int) ∉ knownDLRStatuses ∧
      (99 : Int) ∉ knownDLRStatuses ∧
      parseSMSStatusResponse "OK 9" "sid" =
        Except.ok { success := true, smsId := "sid", status := 9 } ∧
      parseSMSStatusResponse "OK 99" "sid" =
        Except.ok { success := true, smsId := "sid", status := 99 }) := by
  refine ⟨?_, by decide, by decide, by decide, by decide, by decide⟩
  intro s smsId payload h
  constructor
  · intro hnone
    exact ⟨by simp [parseSMSStatusResponse, h, hnone], rfl⟩
  · intro status hsome
    simp [parseSMSStatusResponse, h, hsome]

/-- Witness for C5 at concrete replies: a non-integer payload fails, an
integer payload (here a value outside the known set) passes through. -/
theorem claim_C5_witness :
    (parseResponse "OK abc" = Except.ok "abc" ∧
      parseSMSStatusResponse "OK abc" "id1" =
        Except.error (JSError.plain ("Invalid status response: " ++ "abc"))) ∧
    (parseIntCore "10" = some 10 ∧
      parseSMSStatusResponse "OK 10" "id1" =
        Except.ok { success := true, smsId := "id1", status := 10 }) :=
  ⟨⟨by decide,
      ((claim_C5.1 "OK abc" "id1" "abc" (by decide)).1 (by decide)).1⟩,
    ⟨by decide,
      (claim_C5.1 "OK 10" "id1" "10" (by decide)).2 10 (by decide)⟩⟩

/-! ## C6: operator/HLR decoding -/

/-- C6.  `parseOperatorResponse` splits the payload on `:`; it fails
with a plain "Invalid operator response format" error iff fewer than 3
parts result, and with 3 or more parts returns first/second/third as
MCC-MNC, operator name and `parseFloat`-parsed cost, ignoring any
further parts; on `"OK 20416:T-Mobile Netherlands BV:0.0450"` the cost
is 0.045. -/
theorem claim_C6 :
    (∀ s payload : String, parseResponse s = Except.ok payload →
      ((jsSplitChar ':' payload).length < 3 →
        parseOperatorResponse s =
          Except.error (JSError.plain ("Invalid operator response format: " ++ payload)) ∧
        (JSError.plain ("Invalid operator response format: " ++ payload)).isMalformed = true) ∧
      (∀ a b c rest, jsSplitChar ':' payload = a :: b :: c :: rest →
        parseOperatorResponse s =
          Except.ok { success := true, mccMnc := a, operatorName := b,
                      messageCost := parseFloatCore c })) ∧
    (parseOperatorResponse "OK 20416:T-Mobile Netherlands BV:0.0450" =
      Except.ok { success := true, mccMnc := "20416",
                  operatorName := "T-Mobile Netherlands BV",
                  messageCost := JSNum.num (mkRat 9 200) } ∧
      parseOperatorResponse "OK 20416:T-Mobile" =
        Except.error (JSError.plain "Invalid operator response format: 20416:T-Mobile")) := by
  refine ⟨?_, by decide, by decide⟩
  intro s payload h
  constructor
  · intro hlen
    exact ⟨by simp [parseOperatorResponse, h, hlen], rfl⟩
  · intro a b c rest hsplit
    have hlen : ¬ (jsSplitChar ':' payload).length < 3 := by
      rw [hsplit]
      simp only [List.length_cons]
      omega
    simp [parseOperatorResponse, h, hsplit, hlen, List.getD]

/-- Witness for C6 at concrete replies: a two-part payload fails, a
four-part payload succeeds ignoring the fourth part. -/
theorem claim_C6_witness :
    (parseResponse "OK a:b" = Except.ok "a:b" ∧
      (jsSplitChar ':' "a:b").length < 3 ∧
      parseOperatorResponse "OK a:b" =
        Except.error (JSError.plain ("Invalid operator response format: " ++ "a:b"))) ∧
    (jsSplitChar ':' "a:b:c:d" = ["a", "b", "c", "d"] ∧
      parseOperatorResponse "OK a:b:c:d" =
        Except.ok { success := true, mccMnc := "a", operatorName := "b",
                    messageCost := parseFloatCore "c" }) :=
  ⟨⟨by decide, by decide,
      ((claim_C6.1 "OK a:b" "a:b" (by decide)).1 (by decide)).1⟩,
    ⟨by decide,
      (claim_C6.1 "OK a:b:c:d" "a:b:c:d" (by decide)).2 "a" "b" "c" ["d"] (by decide)⟩⟩

/-! ## C8: no numeric validation of the operator cost field -/

/-- C8.  `parseOperatorResponse` never checks that the cost field is
numeric: whenever the payload has at least 3 colon-separated parts and
`parseFloat` of the third yields `NaN`, the function still succeeds and
the returned cost is `NaN`. -/
theorem claim_C8 :
    ∀ s payload a b c rest, parseResponse s = Except.ok payload →
      jsSplitChar ':' payload = a :: b :: c :: rest →
      parseFloatCore c = JSNum.nan →
      parseOperatorResponse s =
        Except.ok { success := true, mccMnc := a, operatorName := b,
                    messageCost := JSNum.nan } := by
  intro s payload a b c rest h hsplit hnan
  have hlen : ¬ (jsSplitChar ':' payload).length < 3 := by
    rw [hsplit]
    simp only [List.length_cons]
    omega
  simp [parseOperatorResponse, h, hsplit, hlen, List.getD, hnan]

/-- Witness for C8 at the concrete reply `"OK 1:2:abc"`, whose cost
field is non-numeric. -/
theorem claim_C8_witness :
    parseFloatCore "abc" = JSNum.nan ∧
    parseOperatorResponse "OK 1:2:abc" =
      Except.ok { success := true, mccMnc := "1", operatorName := "2",
                  messageCost := JSNum.nan } :=
  ⟨by decide,
    claim_C8 "OK 1:2:abc" "1:2:abc" "1" "2" "abc" [] (by decide) (by decide) (by decide)⟩

/-! ## C7: query-string encoding -/

theorem filterMap_queryPair_filter (params : List (String × Option JSValue)) :
    params.filterMap queryPair =
      (params.filter fun kv => kv.2.isSome).filterMap queryPair := by
  induction params with
  | nil => rfl
  | cons kv rest ih =>
    obtain ⟨k, v⟩ := kv
    cases v with
    | none => simpa [List.filter_cons, queryPair] using ih
    | some v => simp [List.filter_cons, List.filterMap_cons, queryPair, ih]

/-- C7.  `buildQueryString` emits no entry for an absent value under any
key, encodes booleans as exactly `"1"`/`"0"`, percent-encodes key and
value independently (space becomes `%20`, never `+`), joins pairs with
`&` and key/value with `=`, and is a total function. -/
theorem claim_C7 :
    (∀ params : List (String × Option JSValue),
      buildQueryString params =
        buildQueryString (params.filter fun kv => kv.2.isSome)) ∧
    (∀ k : String, ∀ rest : List (String × Option JSValue),
      buildQueryString ((k, none) :: rest) = buildQueryString rest) ∧
    (stringValue (JSValue.vbool true) = "1" ∧ stringValue (JSValue.vbool false) = "0") ∧
    (encodeURIComponent " " = "%20" ∧
      encodeURIComponent "Hello World" = "Hello%20World" ∧
      strContains (encodeURIComponent "Hello World") "+" = false) ∧
    (∀ k : String, ∀ v : JSValue,
      buildQueryString [(k, some v)] =
        encodeURIComponent k ++ "=" ++ encodeURIComponent (stringValue v)) ∧
    (∀ k₁ k₂ : String, ∀ v₁ v₂ : JSValue,
      buildQueryString [(k₁, some v₁), (k₂, some v₂)] =
        encodeURIComponent k₁ ++ "=" ++ encodeURIComponent (stringValue v₁) ++ "&" ++
          (encodeURIComponent k₂ ++ "=" ++ encodeURIComponent (stringValue v₂))) := by
  refine ⟨?_, ?_, ⟨rfl, rfl⟩, ⟨by decide, by decide, by decide⟩, ?_, ?_⟩
  · intro params
    unfold buildQueryString
    rw [filterMap_queryPair_filter]
  · intro k rest
    rfl
  · intro k v
    rfl
  · intro k₁ k₂ v₁ v₂
    rfl

/-! ## C9: error-classification predicates -/

/-- C9.  `isRetryable` is membership in {4002, 4003, 4006},
`isAuthenticationError` is membership in {1002, …, 1007}, and
`isInsufficientCredits` is equality with 1001 — each a pure test on the
stored code. -/
theorem claim_C9 :
    ∀ e : BudgetSMSError,
      (e.isRetryable = true ↔
        e.code = 4002 ∨ e.code = 4003 ∨ e.code = 4006) ∧
      (e.isAuthenticationError = true ↔
        e.code = 1002 ∨ e.code = 1003 ∨ e.code = 1004 ∨
          e.code = 1005 ∨ e.code = 1006 ∨ e.code = 1007) ∧
      (e.isInsufficientCredits = true ↔ e.code = 1001) := by
  intro e
  refine ⟨?_, ?_, ?_⟩
  · simp [BudgetSMSError.isRetryable, List.contains]
  · simp [BudgetSMSError.isAuthenticationError, List.contains]
  · simp [BudgetSMSError.isInsufficientCredits]

/-! ## C10: sender validation -/

/-- C10.  `validateSender s` is true iff `s` is 1–11 characters of
`[A-Za-z0-9]` or 1–16 characters of `[0-9]`; it is false for the empty
string, strings with whitespace or punctuation, 12 alphanumeric
characters that are not all digits, and 17 digits. -/
theorem claim_C10 :
    (∀ s : String,
      validateSender s = true ↔
        (1 ≤ s.toList.length ∧ s.toList.length ≤ 11 ∧
          ∀ c ∈ s.toList, isAlnumAscii c = true) ∨
        (1 ≤ s.toList.length ∧ s.toList.length ≤ 16 ∧
          ∀ c ∈ s.toList, isDigitAscii c = true)) ∧
    validateSender "" = false ∧
    validateSender "MyApp" = true ∧
    validateSender "a b" = false ∧
    validateSender "a.b" = false ∧
    validateSender "abcdefghijkl" = false ∧
    validateSender "1234567890123456" = true ∧
    validateSender "12345678901234567" = false := by
  refine ⟨?_, by decide, by decide, by decide, by decide, by decide, by decide, by decide⟩
  intro s
  unfold validateSender matchesClassRange
  by_cases h1 : decide (1 ≤ s.toList.length) && decide (s.toList.length ≤ 11) &&
      s.toList.all isAlnumAscii <;>
    by_cases h2 : decide (1 ≤ s.toList.length) && decide (s.toList.length ≤ 16) &&
        s.toList.all isDigitAscii <;>
      (simp_all [List.all_eq_true]; try tauto)

end BudgetSMS
